import Mathlib

/-!
Shallow embedding of the Telegram restaurant bot (`main.py`) and proofs of
the specification claims about it.  Text is modelled as `List Char`;
database tables as lists of rows; the Telegram transport, the database
engine and the OpenAI endpoint are modelled as explicit parameters.
-/

namespace BotMesa

/-- Text, modelled as a list of characters. -/
abbrev Str := List Char

/-- Turn a Lean string literal into our character-list representation. -/
def toL (s : String) : Str := s.data

/-- Whitespace characters recognised by Python's `str.strip` / `int`
(ASCII subset; the bot only ever feeds it ASCII-adjacent tokens). -/
def isWs (c : Char) : Bool :=
  c = ' ' || c = '\t' || c = '\n' || c = '\r' || c = Char.ofNat 11 || c = Char.ofNat 12

/-- Python's `str.strip()`: drop whitespace from both ends. -/
def pyStrip (s : Str) : Str :=
  ((s.dropWhile isWs).reverse.dropWhile isWs).reverse

/-- Python's `str.lower()` on the Latin-1 range: ASCII upper-case letters
and the accented upper-case letters U+00C0..U+00DE (except the
multiplication sign) are shifted down by 32; all other characters are
unchanged.  This covers every character the routing keywords use. -/
def pyLower (c : Char) : Char :=
  if ('A' ≤ c ∧ c ≤ 'Z') ∨ ('À' ≤ c ∧ c ≤ 'Þ' ∧ c ≠ '×') then
    Char.ofNat (c.toNat + 32)
  else c

/-- Lower-case a whole text, character by character (model of `.lower()`). -/
def lowerStr (s : Str) : Str := s.map pyLower

/-- Does `p` occur at the start of `s`?  (Model of `str.startswith`.) -/
def leadsWith : Str → Str → Bool
  | [], _ => true
  | _ :: _, [] => false
  | c :: ps, d :: ss => c = d && leadsWith ps ss

/-- Does `pat` occur as a contiguous substring of `s`?
(Model of Python's `pat in s`.) -/
def containsSub (pat : Str) : Str → Bool
  | [] => pat.isEmpty
  | c :: rest => leadsWith pat (c :: rest) || containsSub pat rest

/-- The character for a decimal digit `d < 10`. -/
def digitChar (d : Nat) : Char := Char.ofNat (48 + d)

/-- Is `c` an ASCII decimal digit? -/
def isDigitCh (c : Char) : Bool := ('0' ≤ c) && (c ≤ '9')

/-- Decimal rendering with explicit fuel (the fuel bounds the number of
digits; `n + 1` is always enough). -/
def natCharsAux : Nat → Nat → Str
  | 0, _ => []
  | fuel + 1, n =>
    if n < 10 then [digitChar n]
    else natCharsAux fuel (n / 10) ++ [digitChar (n % 10)]

/-- Decimal rendering of a natural number (model of Python `str(n)` for
`n ≥ 0`). -/
def natChars (n : Nat) : Str := natCharsAux (n + 1) n

/-- Decimal rendering of an integer (model of Python `str(i)`). -/
def intChars (i : Int) : Str :=
  (if i < 0 then ['-'] else []) ++ natChars i.natAbs

/-- Model of `f"{price:.2f}"` applied to a two-digit-scale decimal price,
represented exactly as an integer number of cents: integer part, a dot,
then exactly the tens and units digit of the cent part. -/
def formatPrice (cents : Int) : Str :=
  (if cents < 0 then ['-'] else []) ++
    natChars (cents.natAbs / 100) ++
    '.' :: digitChar (cents.natAbs % 100 / 10) :: [digitChar (cents.natAbs % 100 % 10)]

/-- Number of characters after the last dot of a rendered string. -/
def decimalsAfterDot (s : Str) : Nat :=
  (s.reverse.takeWhile (fun c => c != '.')).length

/-- Model of `" ".join(rules)`. -/
def joinSpace : List Str → Str
  | [] => []
  | [s] => s
  | s :: rest => s ++ ' ' :: joinSpace rest

/-- Python's `s.split("_")`: split on every underscore, keeping empty
fields. -/
def splitUnder : Str → List Str
  | [] => [[]]
  | c :: rest =>
    if c = '_' then [] :: splitUnder rest
    else
      match splitUnder rest with
      | [] => [[c]]
      | g :: gs => (c :: g) :: gs

/-- Tail of a digit run in which single underscores may separate digits:
after a digit, either the run ends, or an underscore followed by a digit
continues it, or another digit continues it. -/
def usTail : Str → Bool
  | [] => true
  | [c] => isDigitCh c
  | c :: d :: rest =>
    if c = '_' then isDigitCh d && usTail rest
    else isDigitCh c && usTail (d :: rest)

/-- Numeric value of a digit string (underscores already removed). -/
def digitsVal (s : Str) : Nat :=
  s.foldl (fun a c => 10 * a + (c.toNat - 48)) 0

/-- Model of the digit-part acceptance of Python `int(str)`: a non-empty
digit run, in which single underscores may stand between digits. -/
def pyDigits (s : Str) : Option Nat :=
  match s with
  | [] => none
  | c :: rest =>
    if isDigitCh c && usTail rest then
      some (digitsVal (s.filter (fun x => x != '_')))
    else none

/-- Sign-and-digits stage of Python `int(str)`, applied after whitespace
stripping: allow one leading sign, then a non-empty digit run
(underscores permitted between digits). -/
def pyIntOf : Str → Option Int
  | [] => none
  | c :: rest =>
    if c = '+' then (pyDigits rest).map Int.ofNat
    else if c = '-' then (pyDigits rest).map (fun n => -(n : Int))
    else (pyDigits (c :: rest)).map Int.ofNat

/-- Model of Python `int(str)`: strip whitespace, then one optional sign
and a non-empty digit run; `none` models the `ValueError` raised on any
other input. -/
def pyInt (s : Str) : Option Int := pyIntOf (pyStrip s)

/-! ## Data model (database rows, conversation turns, rendered replies) -/

/-- Row of the `Category` table. -/
structure Category where
  id : Int
  name : Str
  slug : Str
deriving DecidableEq, Repr

/-- Row of the `Product` table.  `price` is a `Numeric(10,2)` column,
represented exactly as an integer number of cents. -/
structure Product where
  id : Int
  name : Str
  price : Int
  image : Str
  categoryId : Int
deriving DecidableEq, Repr

/-- Row of the `orders` table. -/
structure Order where
  id : Int
deriving DecidableEq, Repr

/-- Row of the `OrderProducts` table (an order line). -/
structure OrderProducts where
  id : Int
  orderId : Int
  productId : Int
  quantity : Int
deriving DecidableEq, Repr

/-- A database fixture: the four tables, as lists of rows in engine order. -/
structure DB where
  categories : List Category
  products : List Product
  orders : List Order
  orderProducts : List OrderProducts
deriving DecidableEq, Repr

/-- One conversation turn, as stored in `context.chat_data
["conversation_history"]`: a role tag and the text content. -/
structure Turn where
  role : Str
  content : Str
deriving DecidableEq, Repr

/-- An inline keyboard button: visible label plus opaque callback token. -/
structure Button where
  label : Str
  data : Str
deriving DecidableEq, Repr

/-- One outbound render: the message text and the button grid (rows of
buttons; empty for a plain text message). -/
structure Render where
  text : Str
  rows : List (List Button)
deriving DecidableEq, Repr

/-- The response templates loaded from `text/responses.json` that the
button handler renders verbatim.  Their contents live outside the source
file, so they are abstract parameters of the model. -/
structure Responses where
  pedido_response : Str
  other_questions_message : Str
  tiempo_pedido_response : Str
  orden_mal_response : Str
  app_no_abre_response : Str
  info_proporcionada_response : Str
deriving DecidableEq, Repr

/-- A Telegram user as the handlers see it (`from_user`). -/
structure UserInfo where
  first_name : Str
deriving DecidableEq, Repr

/-- A direct message origin (`update.message`). -/
structure Message where
  from_user : UserInfo
  chat_id : Int
deriving DecidableEq, Repr

/-- The message a callback query is attached to. -/
structure CallbackMessage where
  chat_id : Int
deriving DecidableEq, Repr

/-- A button-callback origin (`update.callback_query`). -/
structure CallbackQuery where
  from_user : UserInfo
  message : CallbackMessage
  data : Str
deriving DecidableEq, Repr

/-- An inbound update: either origin may be absent. -/
structure Update where
  message : Option Message
  callback_query : Option CallbackQuery
deriving DecidableEq, Repr

/-! ## Operations of `main.py` -/

/-- Model of `get_greeting`, with the current local hour made explicit:
`[5,12)` is morning, `[12,18)` afternoon, everything else evening/night. -/
def get_greeting (current_hour : Nat) : Str :=
  if 5 ≤ current_hour ∧ current_hour < 12 then toL "Buenos días"
  else if 12 ≤ current_hour ∧ current_hour < 18 then toL "Buenas tardes"
  else toL "Buenas noches"

/-- Model of the module-level `system_context` dict: role `"system"`,
content `" ".join(rules)`. -/
def system_context (rules : List Str) : Turn :=
  ⟨toL "system", joinSpace rules⟩

/-- Model of line 174, `messages = [system_context] + history`: the system
turn is prepended freshly; the stored history is untouched. -/
def buildMessages (rules : List Str) (history : List Turn) : List Turn :=
  system_context rules :: history

/-- The query inside `show_products`:
`select(Product).filter(Product.categoryId == category_id)`. -/
def listProducts (db : DB) (category_id : Int) : List Product :=
  db.products.filter (fun p => p.categoryId == category_id)

/-- Number of `OrderProducts` rows referencing a given product: the value
of `func.count(OrderProducts.id)` for that product's group. -/
def orderLineCount (db : DB) (pid : Int) : Nat :=
  (db.orderProducts.filter (fun op => op.productId == pid)).length

/-- The query inside `show_most_ordered_product`: inner-join `Product` to
`OrderProducts`, group by product, order by descending order-line count,
take the first row (`none` when the join is empty).  Ties keep the
earlier row of engine order, matching the engine-determined stable
order the spec documents as non-deterministic. -/
def mostOrderedProduct (db : DB) : Option Product :=
  (db.products.filter (fun p => orderLineCount db p.id != 0)).foldl
    (fun acc p =>
      match acc with
      | none => some p
      | some q => if orderLineCount db q.id < orderLineCount db p.id then some p else acc)
    none

/-- Model of `show_categories`: the category buttons, or the fixed
"no categories" text when the table is empty. -/
def show_categories (db : DB) : Render :=
  if db.categories.isEmpty then
    ⟨toL "No hay categorías disponibles.", []⟩
  else
    ⟨toL "Selecciona una categoría:",
      db.categories.map (fun c => [⟨c.name, toL "category_" ++ intChars c.id⟩]) ++
        [[⟨toL "Regresar al Inicio ↩", toL "return_start"⟩]]⟩

/-- Model of `show_products`: one button per product of the category, its
label carrying the `.2f`-formatted price, or the fixed "no products"
text when the filtered list is empty. -/
def show_products (db : DB) (category_id : Int) : Render :=
  if (listProducts db category_id).isEmpty then
    ⟨toL "No hay productos disponibles en esta categoría.", []⟩
  else
    ⟨toL "Selecciona un producto:",
      (listProducts db category_id).map
          (fun p => [⟨p.name ++ toL " - $" ++ formatPrice p.price,
                      toL "product_" ++ intChars p.id⟩]) ++
        [[⟨toL "Regresar a Categorías ↩", toL "return_categories"⟩]]⟩

/-- Model of `show_most_ordered_product`: the winning product with its
`.2f`-formatted price, or the fixed "no information" text. -/
def show_most_ordered_product (db : DB) : Render :=
  match mostOrderedProduct db with
  | some p =>
      ⟨toL "El producto más pedido es " ++ p.name ++ toL " a un precio de $" ++
          formatPrice p.price ++ toL ".",
        [[⟨toL "Regresar a las Preguntas ↩", toL "return_otros"⟩]]⟩
  | none =>
      ⟨toL "No se encontró información sobre el producto más pedido.",
        [[⟨toL "Regresar a las Preguntas ↩", toL "return_otros"⟩]]⟩

/-- The fixed apology sent when the completion call raises. -/
def apology : Str := toL "Lo siento, algo salió mal al procesar tu solicitud."

/-- The fixed "most ordered product" phrasings checked by `handle_text`. -/
def mostOrderedKeywords : List Str :=
  [toL "producto más pedido", toL "orden más pedida", toL "producto más vendido"]

/-- Result of one `handle_text` invocation: the chat's history afterwards,
the renders sent to the user, and whether the completion endpoint was
invoked. -/
structure TextResult where
  newHistory : List Turn
  outs : List Render
  usedCompletion : Bool
deriving DecidableEq, Repr

/-- Model of `handle_text`.  The completion endpoint is an explicit
parameter: `Except.ok raw` is a successful call returning the first
choice's content, `Except.error ()` is any raised exception.  Routing on
"menú" and on the most-ordered phrasings happens before the LLM path and
leaves the stored history untouched; otherwise the user turn is appended,
and on success the stripped reply is appended as the assistant turn and
sent back, while on failure only the fixed apology is sent. -/
def handle_text (db : DB) (rules : List Str) (hist : List Turn) (msg : Str)
    (completion : Except Unit Str) : TextResult :=
  if containsSub (toL "menú") (lowerStr msg) then
    ⟨hist, [show_categories db], false⟩
  else if mostOrderedKeywords.any (fun k => containsSub k (lowerStr msg)) then
    ⟨hist, [show_most_ordered_product db], false⟩
  else
    let _messages := buildMessages rules (hist ++ [⟨toL "user", msg⟩])
    match completion with
    | Except.ok raw =>
        ⟨(hist ++ [⟨toL "user", msg⟩]) ++ [⟨toL "assistant", pyStrip raw⟩],
          [⟨pyStrip raw, []⟩], true⟩
    | Except.error _ =>
        ⟨hist ++ [⟨toL "user", msg⟩], [⟨apology, []⟩], true⟩

/-- The backtick character used by the Markdown code span around the chat
identifier in the greeting message. -/
def btick : Char := Char.ofNat 96

/-- Markdown code-span wrapping, `f"`...`"` style, around a rendered
chat identifier. -/
def mdCode (s : Str) : Str := btick :: s ++ [btick]

/-- The fixed three-button main menu sent by `start`. -/
def mainMenuKeyboard : List (List Button) :=
  [[⟨toL "Cuál es el menú de hoy 📋", toL "menu"⟩],
   [⟨toL "Cómo puedo realizar un pedido 📑❓", toL "pedido"⟩],
   [⟨toL "Preguntas acerca del Bot 🤖⁉", toL "otros"⟩]]

/-- Result of a handled `start`: the resolved display name and chat
identifier, and the two renders (greeting, then main menu). -/
structure StartOut where
  user_first_name : Str
  chat_id : Int
  outs : List Render
deriving DecidableEq, Repr

/-- Model of `start`.  The greeting template lives in
`text/responses.json`, outside the source, so its formatting is the
abstract parameter `greetFmt` (applied to the first name and the
Markdown-wrapped chat id), and the menu text is `menuMsg`.  `hour` feeds
`get_greeting`, whose result the source computes but never interpolates.
`none` models the silent drop (log and return) when neither origin is
present. -/
def start (greetFmt : Str → Str → Str) (menuMsg : Str) (hour : Nat)
    (u : Update) : Option StartOut :=
  let _greeting := get_greeting hour
  match u.message, u.callback_query with
  | some m, _ =>
      some ⟨m.from_user.first_name, m.chat_id,
        [⟨greetFmt m.from_user.first_name (mdCode (intChars m.chat_id)), []⟩,
         ⟨menuMsg, mainMenuKeyboard⟩]⟩
  | none, some cq =>
      some ⟨cq.from_user.first_name, cq.message.chat_id,
        [⟨greetFmt cq.from_user.first_name (mdCode (intChars cq.message.chat_id)), []⟩,
         ⟨menuMsg, mainMenuKeyboard⟩]⟩
  | none, none => none

/-- The keyboard returned by `get_otros_keyboard`. -/
def get_otros_keyboard : List (List Button) :=
  [[⟨toL "¿Cuánto tiempo demora en llegar mi pedido? ⏳", toL "tiempo_pedido"⟩],
   [⟨toL "¿Cuál es el producto más pedido de este establecimiento? 📊", toL "producto_mas_pedido"⟩],
   [⟨toL "Puse mal una orden ¿Qué puedo hacer? 😬❓", toL "orden_mal"⟩],
   [⟨toL "El aplicativo no abre. 😖", toL "app_no_abre"⟩],
   [⟨toL "Sobre la información Proporcionada 🤔:", toL "info_proporcionada"⟩],
   [⟨toL "Regresar al Inicio ↩", toL "return_start"⟩]]

/-- The single "back to start" keyboard row. -/
def backToStartRow : List (List Button) :=
  [[⟨toL "Regresar al Inicio ↩", toL "return_start"⟩]]

/-- The single "back to questions" keyboard row. -/
def backToOtrosRow : List (List Button) :=
  [[⟨toL "Regresar a las Preguntas ↩", toL "return_otros"⟩]]

/-- One observable effect of the button handler: the mandatory callback
acknowledgement, a rendered reply, or re-entry into the start flow. -/
inductive BtnEffect where
  | ack
  | render (r : Render)
  | startCalled
deriving DecidableEq, Repr

/-- Result of one `button` invocation: the effects in order, and whether
an exception escaped the handler (`int()` raising on a malformed
`category_` token). -/
structure BtnResult where
  effects : List BtnEffect
  error : Bool
deriving DecidableEq, Repr

/-- Model of `button`: answer the callback, then dispatch on the token by
exact match, with a prefix match for `category_` whose second
underscore-split field is fed to `int()`.  A token matching no branch
falls through after the acknowledgement. -/
def button (db : DB) (rsp : Responses) (data : Str) : BtnResult :=
  if data = toL "menu" then
    ⟨[BtnEffect.ack, BtnEffect.render (show_categories db)], false⟩
  else if leadsWith (toL "category_") data then
    match pyInt ((splitUnder data).getD 1 []) with
    | some cid => ⟨[BtnEffect.ack, BtnEffect.render (show_products db cid)], false⟩
    | none => ⟨[BtnEffect.ack], true⟩
  else if data = toL "pedido" then
    ⟨[BtnEffect.ack, BtnEffect.render ⟨rsp.pedido_response, backToStartRow⟩], false⟩
  else if data = toL "otros" then
    ⟨[BtnEffect.ack, BtnEffect.render ⟨rsp.other_questions_message, get_otros_keyboard⟩], false⟩
  else if data = toL "tiempo_pedido" then
    ⟨[BtnEffect.ack, BtnEffect.render ⟨rsp.tiempo_pedido_response, backToOtrosRow⟩], false⟩
  else if data = toL "producto_mas_pedido" then
    ⟨[BtnEffect.ack, BtnEffect.render (show_most_ordered_product db)], false⟩
  else if data = toL "orden_mal" then
    ⟨[BtnEffect.ack, BtnEffect.render ⟨rsp.orden_mal_response, backToOtrosRow⟩], false⟩
  else if data = toL "app_no_abre" then
    ⟨[BtnEffect.ack, BtnEffect.render ⟨rsp.app_no_abre_response, backToOtrosRow⟩], false⟩
  else if data = toL "info_proporcionada" then
    ⟨[BtnEffect.ack, BtnEffect.render ⟨rsp.info_proporcionada_response, backToOtrosRow⟩], false⟩
  else if data = toL "return_start" then
    ⟨[BtnEffect.ack, BtnEffect.startCalled], false⟩
  else if data = toL "return_otros" then
    ⟨[BtnEffect.ack, BtnEffect.render ⟨rsp.other_questions_message, get_otros_keyboard⟩], false⟩
  else if data = toL "return_categories" then
    ⟨[BtnEffect.ack, BtnEffect.render (show_categories db)], false⟩
  else
    ⟨[BtnEffect.ack], false⟩

/-- The eleven exactly-matched callback tokens of the `button` dispatch
(`category_<id>` is matched by prefix, not listed here). -/
def exactTokens : List Str :=
  [toL "menu", toL "pedido", toL "otros", toL "tiempo_pedido",
   toL "producto_mas_pedido", toL "orden_mal", toL "app_no_abre",
   toL "info_proporcionada", toL "return_start", toL "return_otros",
   toL "return_categories"]

/-- Formalised from the claim's wording (C10): a decimal integer literal,
as in Python's grammar — a non-empty digit run in which single
underscores may stand between digits. -/
def isDecIntLiteral (s : Str) : Bool :=
  match s with
  | [] => false
  | c :: rest => isDigitCh c && usTail rest

/-- The segment of a token after its first underscore (the claim's
"segment after the first underscore"). -/
def afterFirstUS (s : Str) : Str :=
  (s.dropWhile (fun c => c != '_')).drop 1

/-- Formalised from the claim's wording (C9): the recognized callback
tokens — the eleven exact tokens plus `category_<id>` for a decimal id. -/
def recognizedTok (s : Str) : Bool :=
  exactTokens.contains s ||
    (leadsWith (toL "category_") s && isDecIntLiteral (afterFirstUS s))

/-- Shape of a stripped segment accepted by `int()` (underscore-free
case): an optional single sign followed by a non-empty run of decimal
digits. -/
def segAcceptedOf : Str → Bool
  | [] => false
  | c :: rest =>
    if c = '+' ∨ c = '-' then !rest.isEmpty && rest.all isDigitCh
    else (c :: rest).all isDigitCh

/-- Acceptance by `int()` of an underscore-free segment: after stripping
whitespace, an optional single sign followed by a non-empty run of
decimal digits. -/
def segAccepted (s : Str) : Bool := segAcceptedOf (pyStrip s)

/-! ## Fixtures -/

/-- The empty database fixture. -/
def emptyDB : DB := ⟨[], [], [], []⟩

/-- Dummy response templates (their contents never matter to the claims). -/
def rsp0 : Responses := ⟨[], [], [], [], [], []⟩

/-- Fixture product P1 (three order lines in `fixtureDB`). -/
def P1 : Product := ⟨1, toL "P1", 350, toL "p1.png", 1⟩

/-- Fixture product P2 (one order line in `fixtureDB`). -/
def P2 : Product := ⟨2, toL "P2", 425, toL "p2.png", 1⟩

/-- The fixture of claim C3: P1 has 3 order lines, P2 has 1. -/
def fixtureDB : DB :=
  ⟨[⟨1, toL "Comida", toL "comida"⟩],
   [P1, P2],
   [⟨1⟩, ⟨2⟩],
   [⟨1, 1, 1, 1⟩, ⟨2, 1, 1, 2⟩, ⟨3, 2, 1, 1⟩, ⟨4, 2, 2, 1⟩]⟩

/-- Number of turns with a given role in a history. -/
def countRole (r : Str) (h : List Turn) : Nat :=
  (h.filter (fun t => t.role == r)).length

-- evaluation sanity checks against the Python behaviour
example : mostOrderedProduct fixtureDB = some P1 := by decide
example : mostOrderedProduct emptyDB = none := by decide
example : pyInt (toL "12") = some 12 := by decide
example : pyInt (toL " +1_2 ") = some 12 := by decide
example : pyInt (toL "") = none := by decide
example : pyInt (toL "1x") = none := by decide
example : pyInt (toL "-07") = some (-7) := by decide
example : splitUnder (toL "category_1_x") = [toL "category", toL "1", toL "x"] := by decide
example : (button emptyDB rsp0 (toL "category_1_x")).error = false := by decide
example : (button emptyDB rsp0 (toL "category_x")).error = true := by decide
example : button emptyDB rsp0 (toL "product_3") = ⟨[BtnEffect.ack], false⟩ := by decide
example : lowerStr (toL "MENÚ del día") = toL "menú del día" := by decide
example : containsSub (toL "menú") (lowerStr (toL "dame el MENÚ")) = true := by decide
example :
    (handle_text emptyDB [] [] (toL "menú producto más pedido") (Except.ok [])).outs
      = [show_categories emptyDB] := by decide
example : get_greeting 5 = toL "Buenos días" := by decide
example : decimalsAfterDot (formatPrice 350) = 2 := by decide
example : formatPrice 350 = toL "3.50" := by decide
example : formatPrice (-5) = toL "-0.05" := by decide

/-! ## Helper lemmas -/

/-- Digit characters are never the dot. -/
theorem digitChar_ne_dot : ∀ d : Nat, d < 10 → digitChar d ≠ '.' := by decide

/-- Whatever survives `pyStrip` was in the original string. -/
theorem pyStrip_subset {c : Char} {s : Str} (h : c ∈ pyStrip s) : c ∈ s := by
  rw [pyStrip, List.mem_reverse] at h
  have h2 : c ∈ (s.dropWhile isWs).reverse := (List.dropWhile_sublist _).mem h
  rw [List.mem_reverse] at h2
  exact (List.dropWhile_sublist _).mem h2

/-- On an underscore-free string, `usTail` is just "all digits". -/
theorem usTail_no_us (r : Str) (h : '_' ∉ r) : usTail r = r.all isDigitCh := by
  induction r with
  | nil => rfl
  | cons c rest ih =>
    rw [List.mem_cons, not_or] at h
    have hc : ¬c = '_' := fun hc => h.1 hc.symm
    cases rest with
    | nil => simp [usTail]
    | cons d rest2 =>
      simp only [usTail, if_neg hc, List.all_cons, ih h.2]

/-- On an underscore-free string, `pyDigits` accepts exactly the
non-empty all-digit strings. -/
theorem pyDigits_isSome (r : Str) (h : '_' ∉ r) :
    (pyDigits r).isSome = (!r.isEmpty && r.all isDigitCh) := by
  cases r with
  | nil => rfl
  | cons c rest =>
    have h2 : '_' ∉ rest := fun hm => h (List.mem_cons_of_mem _ hm)
    simp only [pyDigits, usTail_no_us rest h2, List.isEmpty_cons, Bool.not_false,
      Bool.true_and, List.all_cons]
    rcases Bool.eq_false_or_eq_true (isDigitCh c && rest.all isDigitCh) with hb | hb <;>
      simp [hb]

/-- On an underscore-free string, `int()` succeeds exactly when the
string is, after whitespace stripping, an optionally signed non-empty
digit run. -/
theorem pyInt_isSome (s : Str) (h : '_' ∉ s) : (pyInt s).isSome = segAccepted s := by
  have hs : '_' ∉ pyStrip s := fun hm => h (pyStrip_subset hm)
  rw [pyInt, segAccepted]
  cases hps : pyStrip s with
  | nil => rfl
  | cons c rest =>
    rw [hps] at hs
    rw [List.mem_cons, not_or] at hs
    have hrest : '_' ∉ rest := hs.2
    have hd := pyDigits_isSome rest hrest
    have hcr : '_' ∉ c :: rest := by
      rw [List.mem_cons, not_or]
      exact ⟨hs.1, hrest⟩
    have hdc : (pyDigits (c :: rest)).isSome = (c :: rest).all isDigitCh := by
      rw [pyDigits_isSome _ hcr]
      simp
    simp only [pyIntOf, segAcceptedOf]
    by_cases hplus : c = '+'
    · rw [if_pos hplus, if_pos (Or.inl hplus), ← hd]
      cases hpd : pyDigits rest <;> simp [hpd]
    · by_cases hminus : c = '-'
      · rw [if_neg hplus, if_pos hminus, if_pos (Or.inr hminus), ← hd]
        cases hpd : pyDigits rest <;> simp [hpd]
      · rw [if_neg hplus, if_neg hminus, if_neg (by tauto), ← hdc]
        cases hpd : pyDigits (c :: rest) <;> simp [hpd]

/-- `splitUnder` never returns the empty list of fields. -/
theorem splitUnder_ne_nil (s : Str) : splitUnder s ≠ [] := by
  cases s with
  | nil => simp [splitUnder]
  | cons c rest =>
    by_cases hc : c = '_'
    · simp [splitUnder, hc]
    · simp only [splitUnder, if_neg hc]
      cases h : splitUnder rest <;> simp

/-- No field produced by `splitUnder` contains an underscore. -/
theorem splitUnder_no_us (s : Str) : ∀ g ∈ splitUnder s, '_' ∉ g := by
  induction s with
  | nil =>
    intro g hg
    simp only [splitUnder, List.mem_singleton] at hg
    subst hg
    simp
  | cons c rest ih =>
    intro g hg
    by_cases hc : c = '_'
    · simp only [splitUnder, if_pos hc, List.mem_cons] at hg
      rcases hg with hg | hg
      · subst hg; simp
      · exact ih g hg
    · simp only [splitUnder, if_neg hc] at hg
      cases h : splitUnder rest with
      | nil => exact absurd h (splitUnder_ne_nil rest)
      | cons g0 gs =>
        rw [h] at hg
        rw [List.mem_cons] at hg
        rcases hg with hg | hg
        · subst hg
          intro hm
          rcases List.mem_cons.mp hm with h1 | h1
          · exact hc h1.symm
          · exact ih g0 (h ▸ List.mem_cons_self _ _) h1
        · exact ih g (h ▸ List.mem_cons_of_mem _ hg)

/-- The second underscore-split field of a token has no underscore. -/
theorem splitUnder_getD_no_us (s : Str) : '_' ∉ (splitUnder s).getD 1 [] := by
  rw [List.getD_eq_getElem?_getD]
  cases h : (splitUnder s)[1]? with
  | none => simp
  | some g =>
    simp only [Option.getD_some]
    exact splitUnder_no_us s g (List.getElem?_mem h)

/-! ## Claim theorems -/

/-- C4: for every hour in `[5,12)` `get_greeting` returns the morning
variant, for every hour in `[12,18)` the afternoon variant, and for
every other hour (18 through 23 and 0 through 4 included) the
evening/night variant; being a function of the hour, every boundary hour
maps deterministically to exactly one variant. -/
theorem get_greeting_spec (h : Nat) :
    (5 ≤ h → h < 12 → get_greeting h = toL "Buenos días") ∧
    (12 ≤ h → h < 18 → get_greeting h = toL "Buenas tardes") ∧
    ((h < 5 ∨ 18 ≤ h) → get_greeting h = toL "Buenas noches") := by
  refine ⟨fun h1 h2 => ?_, fun h1 h2 => ?_, fun h1 => ?_⟩
  · rw [get_greeting, if_pos ⟨h1, h2⟩]
  · rw [get_greeting, if_neg (by omega), if_pos ⟨h1, h2⟩]
  · rw [get_greeting, if_neg (by omega), if_neg (by omega)]

/-- Witness for `get_greeting_spec` at the boundary hours 5, 12, 18, 0. -/
theorem get_greeting_spec_witness :
    get_greeting 5 = toL "Buenos días" ∧ get_greeting 12 = toL "Buenas tardes" ∧
    get_greeting 18 = toL "Buenas noches" ∧ get_greeting 0 = toL "Buenas noches" :=
  ⟨(get_greeting_spec 5).1 (by omega) (by omega),
   (get_greeting_spec 12).2.1 (by omega) (by omega),
   (get_greeting_spec 18).2.2 (Or.inr (by omega)),
   (get_greeting_spec 0).2.2 (Or.inl (by omega))⟩

/-- C1: when the completion call raises, `handle_text` sends exactly the
fixed apology, and the stored history afterwards is the old history plus
the user turn — no assistant turn is recorded. -/
theorem handle_text_failure_atomic (db : DB) (rules : List Str) (hist : List Turn)
    (msg : Str)
    (hm : containsSub (toL "menú") (lowerStr msg) = false)
    (hk : mostOrderedKeywords.any (fun k => containsSub k (lowerStr msg)) = false) :
    handle_text db rules hist msg (Except.error ())
      = ⟨hist ++ [⟨toL "user", msg⟩], [⟨apology, []⟩], true⟩ := by
  simp [handle_text, hm, hk]

/-- Witness for `handle_text_failure_atomic` on the message "hola". -/
theorem handle_text_failure_atomic_witness :
    handle_text emptyDB [] [] (toL "hola") (Except.error ())
      = ⟨[⟨toL "user", toL "hola"⟩], [⟨apology, []⟩], true⟩ :=
  handle_text_failure_atomic emptyDB [] [] (toL "hola") (by decide) (by decide)

/-- C2 counterexample: "menú producto más pedido" contains the phrasing
"producto más pedido", yet `handle_text` routes it to the category
listing (the "menú" check comes first), not to the most-ordered-product
answer. -/
theorem handle_text_keyword_routing_cex :
    mostOrderedKeywords.any
        (fun k => containsSub k (lowerStr (toL "menú producto más pedido"))) = true ∧
    (handle_text emptyDB [] [] (toL "menú producto más pedido") (Except.ok [])).outs
      ≠ [show_most_ordered_product emptyDB] := by decide

/-- C2 (amended): text whose lowercased form contains "menú" routes to
the category listing; text whose lowercased form does not contain "menú"
and contains one of the most-ordered phrasings routes to the
most-ordered-product answer; in both cases the history is untouched and
the completion endpoint is never invoked (the result carries
`usedCompletion = false` and is the same for every completion outcome). -/
theorem handle_text_routing_order (db : DB) (rules : List Str) (hist : List Turn)
    (msg : Str) (comp : Except Unit Str) :
    (containsSub (toL "menú") (lowerStr msg) = true →
      handle_text db rules hist msg comp = ⟨hist, [show_categories db], false⟩) ∧
    (containsSub (toL "menú") (lowerStr msg) = false →
      mostOrderedKeywords.any (fun k => containsSub k (lowerStr msg)) = true →
      handle_text db rules hist msg comp = ⟨hist, [show_most_ordered_product db], false⟩) := by
  constructor
  · intro hm; simp [handle_text, hm]
  · intro hm hk; simp [handle_text, hm, hk]

/-- Witness for `handle_text_routing_order`: a "MENÚ" message and a
"producto más pedido" message, each with a failing completion endpoint
that is never consulted. -/
theorem handle_text_routing_order_witness :
    handle_text emptyDB [] [] (toL "Dame el MENÚ") (Except.error ())
        = ⟨[], [show_categories emptyDB], false⟩ ∧
    handle_text emptyDB [] [] (toL "cuál es el producto más pedido") (Except.error ())
        = ⟨[], [show_most_ordered_product emptyDB], false⟩ :=
  ⟨(handle_text_routing_order emptyDB [] [] (toL "Dame el MENÚ") (Except.error ())).1
      (by decide),
   (handle_text_routing_order emptyDB [] []
        (toL "cuál es el producto más pedido") (Except.error ())).2
      (by decide) (by decide)⟩

/-- C6: on the successful completion path the stored history becomes the
old history plus the user turn then the assistant turn, in order;
rebuilding the prompt yields exactly the system turn followed by that
history; and the system turn is never itself stored — the history's
system-turn count is unchanged, and the rebuilt prompt contains exactly
one more system turn than the stored history, so repeated calls never
duplicate it. -/
theorem handle_text_prompt_roundtrip (db : DB) (rules : List Str) (hist : List Turn)
    (msg raw : Str)
    (hm : containsSub (toL "menú") (lowerStr msg) = false)
    (hk : mostOrderedKeywords.any (fun k => containsSub k (lowerStr msg)) = false) :
    (handle_text db rules hist msg (Except.ok raw)).newHistory
        = hist ++ [⟨toL "user", msg⟩, ⟨toL "assistant", pyStrip raw⟩] ∧
    buildMessages rules (handle_text db rules hist msg (Except.ok raw)).newHistory
        = system_context rules ::
            (hist ++ [⟨toL "user", msg⟩, ⟨toL "assistant", pyStrip raw⟩]) ∧
    countRole (toL "system") (handle_text db rules hist msg (Except.ok raw)).newHistory
        = countRole (toL "system") hist ∧
    countRole (toL "system")
        (buildMessages rules (handle_text db rules hist msg (Except.ok raw)).newHistory)
        = countRole (toL "system") hist + 1 := by
  have hnew : (handle_text db rules hist msg (Except.ok raw)).newHistory
      = hist ++ [⟨toL "user", msg⟩, ⟨toL "assistant", pyStrip raw⟩] := by
    simp [handle_text, hm, hk]
  have htail : List.filter (fun t => t.role == toL "system")
      [(⟨toL "user", msg⟩ : Turn), ⟨toL "assistant", pyStrip raw⟩] = [] := rfl
  have hcount : countRole (toL "system")
      (hist ++ [(⟨toL "user", msg⟩ : Turn), ⟨toL "assistant", pyStrip raw⟩])
      = countRole (toL "system") hist := by
    simp [countRole, List.filter_append, htail]
  refine ⟨hnew, by rw [hnew, buildMessages], by rw [hnew]; exact hcount, ?_⟩
  rw [hnew, buildMessages]
  show countRole (toL "system") (system_context rules :: _) = _
  have hsys : ((system_context rules).role == toL "system") = true := rfl
  simp [countRole, List.filter_cons, hsys, List.filter_append, htail]

/-- Witness for `handle_text_prompt_roundtrip` on a concrete exchange. -/
theorem handle_text_prompt_roundtrip_witness :
    (handle_text emptyDB [toL "regla"] [] (toL "hola") (Except.ok (toL " qué tal "))).newHistory
        = [⟨toL "user", toL "hola"⟩, ⟨toL "assistant", pyStrip (toL " qué tal ")⟩] ∧
    buildMessages [toL "regla"]
        (handle_text emptyDB [toL "regla"] [] (toL "hola") (Except.ok (toL " qué tal "))).newHistory
        = system_context [toL "regla"] ::
            [⟨toL "user", toL "hola"⟩, ⟨toL "assistant", pyStrip (toL " qué tal ")⟩] ∧
    countRole (toL "system")
        (handle_text emptyDB [toL "regla"] [] (toL "hola") (Except.ok (toL " qué tal "))).newHistory
        = countRole (toL "system") [] ∧
    countRole (toL "system")
        (buildMessages [toL "regla"]
          (handle_text emptyDB [toL "regla"] [] (toL "hola") (Except.ok (toL " qué tal "))).newHistory)
        = countRole (toL "system") [] + 1 :=
  handle_text_prompt_roundtrip emptyDB [toL "regla"] [] (toL "hola") (toL " qué tal ")
    (by decide) (by decide)

/-- C3: `mostOrderedProduct` (join, group by product, order by descending
order-line count, top row) returns P1 on the fixture where P1 has three
order lines and P2 one; and on every database with no order lines it
returns `none`, rendered as the fixed "no information found" message. -/
theorem mostOrderedProduct_spec :
    mostOrderedProduct fixtureDB = some P1 ∧
    ∀ db : DB, db.orderProducts = [] →
      mostOrderedProduct db = none ∧
      (show_most_ordered_product db).text
        = toL "No se encontró información sobre el producto más pedido." := by
  refine ⟨by decide, fun db hdb => ?_⟩
  have hmo : mostOrderedProduct db = none := by
    have hj : db.products.filter (fun p => orderLineCount db p.id != 0) = [] := by
      rw [List.filter_eq_nil_iff]
      intro p hp
      simp [orderLineCount, hdb]
    simp [mostOrderedProduct, hj]
  exact ⟨hmo, by simp [show_most_ordered_product, hmo]⟩

/-- Witness for `mostOrderedProduct_spec` on the empty database. -/
theorem mostOrderedProduct_spec_witness :
    mostOrderedProduct emptyDB = none ∧
    (show_most_ordered_product emptyDB).text
      = toL "No se encontró información sobre el producto más pedido." :=
  mostOrderedProduct_spec.2 emptyDB rfl

/-- C5: `listProducts` returns only products whose category id equals the
argument, on every fixture; and when no product matches, it returns the
empty list, which `show_products` renders as the fixed "no products"
message with no buttons — never an error. -/
theorem listProducts_spec :
    (∀ (db : DB) (cid : Int) (p : Product), p ∈ listProducts db cid → p.categoryId = cid) ∧
    (∀ (db : DB) (cid : Int), (∀ p ∈ db.products, p.categoryId ≠ cid) →
      listProducts db cid = [] ∧
      (show_products db cid).text = toL "No hay productos disponibles en esta categoría." ∧
      (show_products db cid).rows = []) := by
  constructor
  · intro db cid p hp
    simp only [listProducts, List.mem_filter, beq_iff_eq] at hp
    exact hp.2
  · intro db cid hnone
    have hl : listProducts db cid = [] := by
      rw [listProducts, List.filter_eq_nil_iff]
      intro p hp
      simp [hnone p hp]
    exact ⟨hl, by simp [show_products, hl], by simp [show_products, hl]⟩

/-- Witness for `listProducts_spec`: P1 sits in category 1, and the
unknown category 99 of the fixture yields the empty rendering. -/
theorem listProducts_spec_witness :
    P1.categoryId = 1 ∧
    (listProducts fixtureDB 99 = [] ∧
      (show_products fixtureDB 99).text = toL "No hay productos disponibles en esta categoría." ∧
      (show_products fixtureDB 99).rows = []) :=
  ⟨listProducts_spec.1 fixtureDB 1 P1 (by decide),
   listProducts_spec.2 fixtureDB 99 (by decide)⟩

/-- C7: every rendered price has exactly two decimal digits: `formatPrice`
always puts exactly two characters after its dot, the product list's
button labels carry `formatPrice` of the product's price, and the
most-ordered-product answer interpolates `formatPrice` of the winner's
price. -/
theorem price_two_decimals :
    (∀ cents : Int, decimalsAfterDot (formatPrice cents) = 2) ∧
    (∀ (db : DB) (cid : Int) (p : Product), p ∈ listProducts db cid →
      [(⟨p.name ++ toL " - $" ++ formatPrice p.price,
          toL "product_" ++ intChars p.id⟩ : Button)]
        ∈ (show_products db cid).rows) ∧
    (∀ (db : DB) (p : Product), mostOrderedProduct db = some p →
      (show_most_ordered_product db).text
        = toL "El producto más pedido es " ++ p.name ++ toL " a un precio de $" ++
            formatPrice p.price ++ toL ".") := by
  refine ⟨fun cents => ?_, fun db cid p hp => ?_, fun db p hp => ?_⟩
  · have h1 : (digitChar (cents.natAbs % 100 / 10) != '.') = true := by
      simp [bne_iff_ne]
      exact digitChar_ne_dot _ (by omega)
    have h2 : (digitChar (cents.natAbs % 100 % 10) != '.') = true := by
      simp [bne_iff_ne]
      exact digitChar_ne_dot _ (by omega)
    have h3 : (('.' : Char) != '.') = false := by decide
    simp [decimalsAfterDot, formatPrice, List.reverse_append, List.takeWhile, h1, h2, h3]
  · have hne : (listProducts db cid).isEmpty = false := by
      cases h : listProducts db cid
      · rw [h] at hp; cases hp
      · rfl
    simp only [show_products, hne, Bool.false_eq_true, if_false]
    exact List.mem_append_left _ (List.mem_map_of_mem _ hp)
  · simp [show_most_ordered_product, hp]

/-- Witness for `price_two_decimals` on the fixture's product P1. -/
theorem price_two_decimals_witness :
    decimalsAfterDot (formatPrice 350) = 2 ∧
    [(⟨P1.name ++ toL " - $" ++ formatPrice P1.price,
        toL "product_" ++ intChars P1.id⟩ : Button)]
      ∈ (show_products fixtureDB 1).rows ∧
    (show_most_ordered_product fixtureDB).text
      = toL "El producto más pedido es " ++ P1.name ++ toL " a un precio de $" ++
          formatPrice P1.price ++ toL "." :=
  ⟨price_two_decimals.1 350,
   price_two_decimals.2.1 fixtureDB 1 P1 (by decide),
   price_two_decimals.2.2 fixtureDB P1 (by decide)⟩

/-- C8: a start event carrying neither a direct-message origin nor a
button-callback origin is dropped without any reply (and without raising:
the handler is a total function); one carrying a direct-message origin
resolves the display name and chat identifier from it, and one carrying
only a button-callback origin resolves them from that origin. -/
theorem start_origin_resolution :
    (∀ (g : Str → Str → Str) (m : Str) (hr : Nat) (u : Update),
      u.message = none → u.callback_query = none → start g m hr u = none) ∧
    (∀ (g : Str → Str → Str) (m : Str) (hr : Nat) (u : Update) (dm : Message),
      u.message = some dm →
      ∃ s, start g m hr u = some s ∧
        s.user_first_name = dm.from_user.first_name ∧ s.chat_id = dm.chat_id) ∧
    (∀ (g : Str → Str → Str) (m : Str) (hr : Nat) (u : Update) (cq : CallbackQuery),
      u.message = none → u.callback_query = some cq →
      ∃ s, start g m hr u = some s ∧
        s.user_first_name = cq.from_user.first_name ∧ s.chat_id = cq.message.chat_id) := by
  refine ⟨?_, ?_, ?_⟩
  · intro g m hr u h1 h2
    simp [start, h1, h2]
  · intro g m hr u dm h1
    obtain ⟨om, oc⟩ := u
    simp only at h1
    subst h1
    cases oc <;> exact ⟨_, rfl, rfl, rfl⟩
  · intro g m hr u cq h1 h2
    obtain ⟨om, oc⟩ := u
    simp only at h1 h2
    subst h1; subst h2
    exact ⟨_, rfl, rfl, rfl⟩

/-- Witness for `start_origin_resolution`: a bare update is dropped, a
direct message resolves to its sender, a callback to its presser. -/
theorem start_origin_resolution_witness :
    start (fun _ _ => []) [] 0 ⟨none, none⟩ = none ∧
    (∃ s, start (fun _ _ => []) [] 0 ⟨some ⟨⟨toL "Ana"⟩, 7⟩, none⟩ = some s ∧
      s.user_first_name = toL "Ana" ∧ s.chat_id = 7) ∧
    (∃ s, start (fun _ _ => []) [] 0 ⟨none, some ⟨⟨toL "Luis"⟩, ⟨9⟩, toL "menu"⟩⟩ = some s ∧
      s.user_first_name = toL "Luis" ∧ s.chat_id = 9) :=
  ⟨start_origin_resolution.1 (fun _ _ => []) [] 0 ⟨none, none⟩ rfl rfl,
   start_origin_resolution.2.1 (fun _ _ => []) [] 0 ⟨some ⟨⟨toL "Ana"⟩, 7⟩, none⟩
     ⟨⟨toL "Ana"⟩, 7⟩ rfl,
   start_origin_resolution.2.2 (fun _ _ => []) [] 0 ⟨none, some ⟨⟨toL "Luis"⟩, ⟨9⟩, toL "menu"⟩⟩
     ⟨⟨toL "Luis"⟩, ⟨9⟩, toL "menu"⟩ rfl rfl⟩

/-- C9 counterexample: "category_x" lies outside the recognized token set
(the segment "x" is not a decimal id), yet the handler does not simply
acknowledge and return — the `int()` conversion raises, so the result
carries the error flag. -/
theorem button_unrecognized_cex :
    recognizedTok (toL "category_x") = false ∧
    button emptyDB rsp0 (toL "category_x") ≠ ⟨[BtnEffect.ack], false⟩ := by decide

/-- C9 (amended): for every callback token that matches none of the
eleven exact tokens and does not begin with "category_" — the
`product_<id>` tokens the bot attaches to product buttons included —
the button handler acknowledges the callback and returns with no
render, no start-flow re-entry, no error and no state change. -/
theorem button_fallthrough (db : DB) (rsp : Responses) (t : Str)
    (hmem : t ∉ exactTokens) (hpre : leadsWith (toL "category_") t = false) :
    button db rsp t = ⟨[BtnEffect.ack], false⟩ := by
  simp only [exactTokens, List.mem_cons, List.mem_singleton, not_or] at hmem
  obtain ⟨h1, h2, h3, h4, h5, h6, h7, h8, h9, h10, h11⟩ := hmem
  simp [button, h1, h2, h3, h4, h5, h6, h7, h8, h9, h10, h11, hpre]

/-- Witness for `button_fallthrough` on the token "product_3". -/
theorem button_fallthrough_witness :
    button emptyDB rsp0 (toL "product_3") = ⟨[BtnEffect.ack], false⟩ :=
  button_fallthrough emptyDB rsp0 (toL "product_3") (by decide) (by decide)

/-- C10 counterexample: on the token "category_1_x" the `int()`
conversion succeeds (the second underscore-split field is "1"), although
the segment after the first underscore, "1_x", is not a decimal integer
literal — the claimed equivalence fails. -/
theorem button_category_parse_cex :
    ¬(((button emptyDB rsp0 (toL "category_1_x")).error = false) ↔
        isDecIntLiteral (afterFirstUS (toL "category_1_x")) = true) := by decide

/-- C10 (amended): for every token beginning with "category_", the
handler splits on "_" and feeds the second field to `int()`; the
conversion succeeds — no exception escapes — exactly when that second
field (the text between the first and second underscore, or to the end
of the token) is, after whitespace stripping, an optionally signed
non-empty digit run; and on success the handler dispatches to the
product listing for the parsed id. -/
theorem button_category_parse (db : DB) (rsp : Responses) (t : Str)
    (hpre : leadsWith (toL "category_") t = true) :
    (((button db rsp t).error = false) ↔
      segAccepted ((splitUnder t).getD 1 []) = true) ∧
    (∀ cid : Int, pyInt ((splitUnder t).getD 1 []) = some cid →
      button db rsp t
        = ⟨[BtnEffect.ack, BtnEffect.render (show_products db cid)], false⟩) := by
  have hmenu : ¬t = toL "menu" := by
    intro ht
    rw [ht] at hpre
    exact absurd hpre (by decide)
  have hus : '_' ∉ (splitUnder t).getD 1 [] := splitUnder_getD_no_us t
  have hiff := pyInt_isSome ((splitUnder t).getD 1 []) hus
  have hbtn : button db rsp t
      = match pyInt ((splitUnder t).getD 1 []) with
        | some cid => ⟨[BtnEffect.ack, BtnEffect.render (show_products db cid)], false⟩
        | none => ⟨[BtnEffect.ack], true⟩ := by
    rw [button, if_neg hmenu, if_pos hpre]
  constructor
  · rw [hbtn]
    cases hp : pyInt ((splitUnder t).getD 1 []) with
    | none =>
      rw [hp] at hiff
      simp only [Option.isSome_none] at hiff
      constructor
      · intro hc
        exact Bool.noConfusion hc
      · intro hc
        rw [← hiff] at hc
        exact Bool.noConfusion hc
    | some v =>
      rw [hp] at hiff
      simp only [Option.isSome_some] at hiff
      constructor
      · intro _
        exact hiff.symm
      · intro _
        rfl
  · intro cid hp
    rw [hbtn, hp]

/-- Witness for `button_category_parse` on the token "category_1". -/
theorem button_category_parse_witness :
    (((button emptyDB rsp0 (toL "category_1")).error = false) ↔
        segAccepted ((splitUnder (toL "category_1")).getD 1 []) = true) ∧
    button emptyDB rsp0 (toL "category_1")
        = ⟨[BtnEffect.ack, BtnEffect.render (show_products emptyDB 1)], false⟩ :=
  ⟨(button_category_parse emptyDB rsp0 (toL "category_1") (by decide)).1,
   (button_category_parse emptyDB rsp0 (toL "category_1") (by decide)).2 1 (by decide)⟩

end BotMesa
